import Mathlib

/-!
Verification development for the sensor-reading fetch pipeline of
`data-fetcher/readings_fetcher.py`: the paginated measurement client,
the memoized weather lookup, the per-sensor processing task, the
orchestrator loop that merges per-sensor task results, and the CSV
append step.  The remote HTTP endpoints are modelled as functions from a
request index (measurement API) or from a lookup key (weather API) to a
reply value; exceptions raised by the HTTP library are a distinguished
`netErr` reply; the `while True` pagination loop is run on explicit
fuel.
-/

namespace Fetcher

/-- One raw measurement item of the measurement API response
(`results[i]` with `period.datetimeFrom.utc` as a unix timestamp in
seconds, and `value`). -/
structure RawResult where
  datetimeFrom : Nat
  value : Int
  deriving DecidableEq, Repr

/-- The `meta` object of a measurement API response: each of
`page`, `limit`, `found` may be absent (`meta.get` defaults apply). -/
structure MetaPart where
  page : Option Nat
  limit : Option Nat
  found : Option Nat
  deriving DecidableEq, Repr

/-- What one GET against the measurement endpoint yields: an HTTP reply
with status code, parsed `results` and `meta`, or a network-level
exception (`requests.RequestException`). -/
inductive PageReply where
  | reply (code : Nat) (results : List RawResult) (meta : MetaPart)
  | netErr
  deriving DecidableEq, Repr

/-- An output measurement record as built by `fetch_measurements`:
`{reading_datetime, sensor_id, reading_value}`. -/
structure Reading where
  reading_datetime : Nat
  sensor_id : Nat
  reading_value : Int
  deriving DecidableEq, Repr

/-- UTC hour-of-day of a unix timestamp (`ts.hour`). -/
def hourOf (t : Nat) : Nat := t / 3600 % 24

/-- The per-page record construction of `fetch_measurements`: keep the
items whose UTC hour is in `[0, 6, 12, 18]` and turn each into an
output record, preserving order. -/
def pageReadings (sensor_id : Nat) (rs : List RawResult) : List Reading :=
  (rs.filter fun r => hourOf r.datetimeFrom ∈ [0, 6, 12, 18]).map
    fun r => ⟨r.datetimeFrom, sensor_id, r.value⟩

/-- Outcome of the inner `for attempt in range(max_retries)` loop of
`fetch_measurements` for one page: the page's parsed data (after the
sleeps recorded, having made `nreq` GETs), or `giveup` (the `for`/`else`
branch: every attempt failed) or `hardStop` (a non-200 status other than
408/429). -/
inductive RetryOut where
  | success (results : List RawResult) (meta : MetaPart) (sleeps : List Nat) (nreq : Nat)
  | giveup (sleeps : List Nat) (nreq : Nat)
  | hardStop (sleeps : List Nat) (nreq : Nat)
  deriving DecidableEq, Repr

/-- Record one failed attempt in a retry-loop outcome: the backoff
sleep of `w` seconds is prepended and the GET count incremented. -/
def RetryOut.addSleep (w : Nat) : RetryOut → RetryOut
  | .success res m s n => .success res m (w :: s) (n + 1)
  | .giveup s n => .giveup (w :: s) (n + 1)
  | .hardStop s n => .hardStop (w :: s) (n + 1)

/-- The number of GETs an outcome of the retry loop accounts for. -/
def RetryOut.nreq : RetryOut → Nat
  | .success _ _ _ n => n
  | .giveup _ n => n
  | .hardStop _ n => n

/-- Is a reply one of the transient failures (HTTP 408, HTTP 429, or a
network-level exception) that the measurement client retries? -/
def PageReply.isTransient : PageReply → Bool
  | .netErr => true
  | .reply code _ _ => code = 408 || code = 429

/-- The inner retry loop.  `api` maps the global GET counter to the
reply of that GET; `req` is the counter value for the next GET;
`attempts` is the remaining part of `range(max_retries)`.  Status 408
and 429 and network exceptions sleep `2 ^ attempt` seconds and retry;
any other non-200 status aborts the fetch; 200 hands the data back. -/
def retryPage (api : Nat → PageReply) : Nat → List Nat → RetryOut
  | _, [] => .giveup [] 0
  | req, attempt :: rest =>
    match api req with
    | .netErr => (retryPage api (req + 1) rest).addSleep (2 ^ attempt)
    | .reply code results meta =>
      if code = 408 ∨ code = 429 then
        (retryPage api (req + 1) rest).addSleep (2 ^ attempt)
      else if code ≠ 200 then .hardStop [] 1
      else .success results meta [] 1

/-- The observable trace of one `fetch_measurements` call: the returned
record list, the sequence of backoff sleep durations (seconds, in
order), and the page number carried by each GET (in request order). -/
structure FetchTrace where
  results : List Reading
  sleeps : List Nat
  requestedPages : List Nat
  rawPages : List (List RawResult)
  deriving DecidableEq, Repr

/-- The `while True` pagination loop of `fetch_measurements`, on fuel.
`pageParam` is `params["page"]`, `req` the global GET counter.  A page
whose retry loop gives up or hard-stops ends the fetch with the records
accumulated so far; an empty `results` list breaks; otherwise the
page's records are appended, and the loop stops when
`page * limit >= found` (with `meta.get` defaults: `page` defaults to
`params["page"]`, `limit` to `len(results)`, `found` to `0`) or else
requests page `page + 1`. -/
def fetchLoop (api : Nat → PageReply) (sensor_id max_retries : Nat) :
    Nat → Nat → Nat → FetchTrace
  | 0, _, _ => ⟨[], [], [], []⟩
  | fuel + 1, pageParam, req =>
    match retryPage api req (List.range max_retries) with
    | .giveup s n => ⟨[], s, List.replicate n pageParam, []⟩
    | .hardStop s n => ⟨[], s, List.replicate n pageParam, []⟩
    | .success results meta s n =>
      if results = [] then ⟨[], s, List.replicate n pageParam, []⟩
      else
        let newRs := pageReadings sensor_id results
        let page := meta.page.getD pageParam
        let limit := meta.limit.getD results.length
        let found := meta.found.getD 0
        if found ≤ page * limit then
          ⟨newRs, s, List.replicate n pageParam, [results]⟩
        else
          let t := fetchLoop api sensor_id max_retries fuel (page + 1) (req + n)
          ⟨newRs ++ t.results, s ++ t.sleeps,
            List.replicate n pageParam ++ t.requestedPages,
            results :: t.rawPages⟩

/-- The whole of `fetch_measurements`: run the pagination loop from
`params["page"] = 1` with the GET counter at 0. -/
def fetch_measurements (api : Nat → PageReply) (sensor_id : Nat)
    (max_retries : Nat) (fuel : Nat) : FetchTrace :=
  fetchLoop api sensor_id max_retries fuel 1 0

/-! ### Weather lookup -/

/-- The memoization key of `fetch_weather`: rounded latitude, rounded
longitude (both already rounded to two decimals by the caller, kept
abstract as integers in hundredths of a degree) and the unix timestamp
of the measurement. -/
abbrev WKey := Int × Int × Nat

/-- One item of the weather API's `list` field; each nested field may
be absent (the `.get(..., default)` chains of `fetch_weather`). -/
structure WItem where
  wind_speed : Option Int
  rain_1h : Option Int
  temp : Option Int
  deriving DecidableEq, Repr

/-- What one GET against the weather endpoint yields: an HTTP reply
with status code and parsed `list`, or a network-level exception
(connection error / timeout), which `fetch_weather` does not catch. -/
inductive WReply where
  | reply (code : Nat) (list : List WItem)
  | netErr
  deriving DecidableEq, Repr

/-- The `{wind_speed, rain, temp}` record returned by
`fetch_weather`. -/
structure Weather where
  wind_speed : Int
  rain : Int
  temp : Int
  deriving DecidableEq, Repr

/-- The sentinel record returned for a non-200 reply or an empty
`list`. -/
def sentinelWeather : Weather := ⟨0, 0, 999⟩

/-- The body of `fetch_weather` after the HTTP call returned (status
code plus parsed body): non-200 and empty-`list` replies give the
sentinel; otherwise the fields of `list[0]` with their defaults. -/
def weatherOfReply (code : Nat) (list : List WItem) : Weather :=
  if code ≠ 200 then sentinelWeather
  else
    match list with
    | [] => sentinelWeather
    | item :: _ => ⟨item.wind_speed.getD 0, item.rain_1h.getD 0, item.temp.getD 999⟩

/-- The `functools.lru_cache` state wrapping `fetch_weather`:
key/value pairs, most recently used first, at most 5000 entries. -/
abbrev WCache := List (WKey × Weather)

/-- Cache lookup: the value stored for `k`, if any. -/
def lruFind (c : WCache) (k : WKey) : Option Weather :=
  match c.find? fun p => p.1 = k with
  | some p => some p.2
  | none => none

/-- Remove the entry for `k` (used to move a hit to the front). -/
def lruRemove (c : WCache) (k : WKey) : WCache :=
  c.filter fun p => ¬ p.1 = k

/-- The `maxsize` of the `lru_cache` decorating `fetch_weather`. -/
def lruMaxsize : Nat := 5000

/-- One call of the memoized `fetch_weather`.  On a cache hit the
stored record is returned, the key moves to the front, and no GET is
issued.  On a miss the GET is issued: a network-level exception
propagates (nothing is cached); otherwise the computed record is
cached, evicting the least recently used entry beyond `maxsize`.
Returns the record, the new cache and whether a GET was issued. -/
def fetch_weather (wapi : WKey → WReply) (c : WCache) (k : WKey) :
    Except Unit (Weather × WCache × Bool) :=
  match lruFind c k with
  | some v => .ok (v, (k, v) :: lruRemove c k, false)
  | none =>
    match wapi k with
    | .netErr => .error ()
    | .reply code list =>
      let v := weatherOfReply code list
      .ok (v, ((k, v) :: c).take lruMaxsize, true)

/-- A sequence of memoized lookups threading the cache; returns the
final cache and, per lookup, whether it issued a GET.  Stops with an
error at the first uncaught network exception. -/
def runLookups (wapi : WKey → WReply) : WCache → List WKey →
    Except Unit (WCache × List Bool)
  | c, [] => .ok (c, [])
  | c, k :: ks =>
    match fetch_weather wapi c k with
    | .error e => .error e
    | .ok (_, c1, b) =>
      match runLookups wapi c1 ks with
      | .error e => .error e
      | .ok (c2, bs) => .ok (c2, b :: bs)

/-! ### Per-sensor task and orchestrator -/

/-- An output row after `r.update(weather)`: the measurement record
with the weather fields attached. -/
structure FullRow where
  reading_datetime : Nat
  sensor_id : Nat
  reading_value : Int
  wind_speed : Int
  rain : Int
  temp : Int
  deriving DecidableEq, Repr

/-- Attach a weather record to a measurement record. -/
def attachRow (r : Reading) (w : Weather) : FullRow :=
  ⟨r.reading_datetime, r.sensor_id, r.reading_value, w.wind_speed, w.rain, w.temp⟩

/-- The `for r in results` loop of `process_sensor`: look up weather at
the sensor's rounded coordinates and the record's timestamp and attach
it, threading the shared cache; an uncaught network exception aborts
the whole task. -/
def attachWeather (wapi : WKey → WReply) (lat lon : Int) :
    WCache → List Reading → Except Unit (List FullRow × WCache)
  | c, [] => .ok ([], c)
  | c, r :: rs =>
    match fetch_weather wapi c (lat, lon, r.reading_datetime) with
    | .error e => .error e
    | .ok (w, c1, _) =>
      match attachWeather wapi lat lon c1 rs with
      | .error e => .error e
      | .ok (rows, c2) => .ok (attachRow r w :: rows, c2)

/-- One sensor task (`process_sensor`): fetch the measurements, then
attach weather to each record.  An exception escaping the weather
lookup escapes the task. -/
def process_sensor (api : Nat → PageReply) (wapi : WKey → WReply)
    (sensor_id : Nat) (lat lon : Int) (max_retries fuel : Nat)
    (c : WCache) : Except Unit (List FullRow × WCache) :=
  attachWeather wapi lat lon c
    (fetch_measurements api sensor_id max_retries fuel).results

/-- The `as_completed` collection loop of the orchestrator: task
results in completion order; a task that raised is caught, logged and
skipped, a successful task's rows extend `all_data`. -/
def orchestrate (tasks : List (Except Unit (List FullRow))) : List FullRow :=
  tasks.foldl (fun acc t => match t with | .ok rows => acc ++ rows | .error _ => acc) []

/-! ### CSV append -/

/-- The final `to_csv` call: the file content (as a list of lines,
`none` when the file does not exist) after writing rows `rows` with
header line `header` — append mode without header when the file
exists, write mode with header otherwise. -/
def saveOutput (existing : Option (List String)) (header : String)
    (rows : List String) : List String :=
  match existing with
  | none => header :: rows
  | some prior => prior ++ rows

/-! ### Mocked endpoints (concrete instances used in the theorems) -/

/-- The empty `meta` object. -/
def noMeta : MetaPart := ⟨none, none, none⟩

/-- A measurement endpoint that always answers 200 with a single item
at midnight UTC and no `meta`. -/
def apiOne : Nat → PageReply := fun _ => .reply 200 [⟨0, 7⟩] noMeta

/-- A measurement endpoint answering 429 on the first two GETs and 200
with data afterwards. -/
def api429 : Nat → PageReply := fun n =>
  if n < 2 then .reply 429 [] noMeta else .reply 200 [⟨0, 7⟩] noMeta

/-- A measurement endpoint that answers 429 to every GET. -/
def api429Always : Nat → PageReply := fun _ => .reply 429 [] noMeta

/-- A measurement endpoint whose first GET succeeds with
`found = 2500`, and which answers 429 to every further GET. -/
def apiGoodThenFail : Nat → PageReply := fun n =>
  if n = 0 then .reply 200 [⟨0, 7⟩] ⟨some 1, some 1000, some 2500⟩
  else .reply 429 [] noMeta

/-- A measurement endpoint reporting `found = 2500, limit = 1000` and
echoing the requested page number. -/
def api2500 : Nat → PageReply := fun n =>
  .reply 200 [⟨21600 * (n + 1), 7⟩] ⟨some (n + 1), some 1000, some 2500⟩

/-- A measurement endpoint reporting `found = 2500, limit = 1000`
whose second page is empty: only the zero-results condition can stop
the fetch on page 2. -/
def apiEmptyPage : Nat → PageReply := fun n =>
  if n = 0 then .reply 200 [⟨0, 7⟩] ⟨some 1, some 1000, some 2500⟩
  else .reply 200 [] ⟨some 2, some 1000, some 2500⟩

/-- A raw item at a sampling hour, used to build a duplicate across
two pages. -/
def dupRaw : RawResult := ⟨0, 7⟩

/-- A measurement endpoint serving two pages that both contain the
very same item (`found = 2, limit = 1`). -/
def apiDup : Nat → PageReply := fun n =>
  .reply 200 [dupRaw] ⟨some (n + 1), some 1, some 2⟩

/-- A measurement endpoint whose single page lists 18:00 UTC before
12:00 UTC of the same day. -/
def apiUnsorted : Nat → PageReply := fun _ =>
  .reply 200 [⟨64800, 7⟩, ⟨43200, 8⟩] noMeta

/-- A weather endpoint that always answers 200 with an empty `list`. -/
def wapiEmpty : WKey → WReply := fun _ => .reply 200 []

/-- A weather endpoint that always answers HTTP 500. -/
def wapi500 : WKey → WReply := fun _ => .reply 500 []

/-- A weather endpoint that always raises a network-level exception. -/
def wapiNet : WKey → WReply := fun _ => .netErr

/-- A weather endpoint that always answers 200 with one item. -/
def wapiItem : WKey → WReply := fun _ => .reply 200 [⟨some 3, some 1, some 20⟩]

/-- Distinct weather keys sharing coordinates, indexed by
timestamp. -/
def wk (i : Nat) : WKey := (0, 0, i)

/-- The value the memoized lookup would cache for key `k` (defined for
replies; a network exception caches nothing). -/
def wOfApi (wapi : WKey → WReply) (k : WKey) : Weather :=
  match wapi k with
  | .reply code list => weatherOfReply code list
  | .netErr => sentinelWeather

/-- The per-lookup GET flags of a lookup run (empty when the run
raised). -/
def lookupFlags (e : Except Unit (WCache × List Bool)) : List Bool :=
  match e with
  | .ok (_, bs) => bs
  | .error _ => []

/-- A lookup sequence that repeats its first key at the very end, with
5000 distinct keys in between. -/
def ksEvict : List WKey :=
  (wk 0 :: (List.range 5000).map fun i => wk (i + 1)) ++ [wk 0]

/-! ## Helper lemmas -/

lemma hour_of_pageReadings {sensor_id : Nat} {rs : List RawResult} {r : Reading}
    (h : r ∈ pageReadings sensor_id rs) :
    hourOf r.reading_datetime ∈ [0, 6, 12, 18] := by
  rcases List.mem_map.1 h with ⟨x, hx, rfl⟩
  simpa using (List.mem_filter.1 hx).2

lemma mem_results_fetchLoop {api : Nat → PageReply} {sid mr : Nat} :
    ∀ {fuel p req : Nat} {r : Reading},
      r ∈ (fetchLoop api sid mr fuel p req).results →
      hourOf r.reading_datetime ∈ [0, 6, 12, 18] := by
  intro fuel
  induction fuel with
  | zero => intro p req r h; simp [fetchLoop] at h
  | succ n ih =>
    intro p req r h
    rw [fetchLoop] at h
    rcases hE : retryPage api req (List.range mr) with ⟨res, m, s, k⟩ | ⟨s, k⟩ | ⟨s, k⟩ <;>
      rw [hE] at h
    · by_cases hres : res = []
      · simp [hres] at h
      · simp only [if_neg hres] at h
        split at h
        · exact hour_of_pageReadings (by simpa using h)
        · rcases List.mem_append.1 (by simpa using h) with h1 | h2
          · exact hour_of_pageReadings h1
          · exact ih h2
    · simp at h
    · simp at h

/-! ## C1 -/

/-- C1: every reading record returned by `fetch_measurements` (for any
sensor, any endpoint behaviour and any run length) has a
`reading_datetime` whose UTC hour-of-day is 0, 6, 12 or 18; samples at
any other hour are filtered out and never emitted. -/
theorem reading_hours_restricted (api : Nat → PageReply)
    (sensor_id max_retries fuel : Nat) (r : Reading)
    (h : r ∈ (fetch_measurements api sensor_id max_retries fuel).results) :
    hourOf r.reading_datetime = 0 ∨ hourOf r.reading_datetime = 6 ∨
      hourOf r.reading_datetime = 12 ∨ hourOf r.reading_datetime = 18 := by
  simpa using @mem_results_fetchLoop api sensor_id max_retries fuel 1 0 r h

/-- Witness for C1 at a concrete endpoint and record. -/
theorem reading_hours_restricted_witness :
    (⟨0, 1, 7⟩ : Reading) ∈ (fetch_measurements apiOne 1 5 1).results ∧
      (hourOf (0 : Nat) = 0 ∨ hourOf 0 = 6 ∨ hourOf 0 = 12 ∨ hourOf 0 = 18) :=
  ⟨by decide, reading_hours_restricted apiOne 1 5 1 ⟨0, 1, 7⟩ (by decide)⟩

/-! ## C2 -/

lemma retry_all_transient {api : Nat → PageReply}
    (hT : ∀ i, (api i).isTransient = true) :
    ∀ (attempts : List Nat) (req : Nat),
      retryPage api req attempts =
        .giveup (attempts.map fun a => 2 ^ a) attempts.length := by
  intro attempts
  induction attempts with
  | nil => intro req; rfl
  | cons a rest ih =>
    intro req
    have hA := hT req
    rw [retryPage]
    cases hq : api req with
    | netErr => rw [ih (req + 1)]; simp [RetryOut.addSleep]
    | reply code results meta =>
      rw [hq] at hA
      have hc : code = 408 ∨ code = 429 := by
        simpa [PageReply.isTransient] using hA
      dsimp only
      rw [if_pos hc, ih (req + 1)]
      simp [RetryOut.addSleep]

/-- C2: a transient reply (HTTP 408, HTTP 429 or a network-level
exception) makes the retry loop sleep `2 ^ attempt` seconds and retry
the same page; when every attempt of `range(max_retries)` is
transient, the loop gives up after sleeping `2 ^ 0, …,
2 ^ (max_retries - 1)` seconds and the fetch returns the records
accumulated from the pages already fetched, raising nothing (mocked:
one good page with `found = 2500` then constant 429 returns exactly
that page's records after 5 backoff sleeps); and an endpoint answering
429 twice then 200 succeeds after exactly 2 delayed retries, with
delays `2 ^ 0` and `2 ^ 1` seconds. -/
theorem backoff_retry_policy :
    (∀ (api : Nat → PageReply) (req a : Nat) (rest : List Nat),
        (api req).isTransient = true →
        retryPage api req (a :: rest) =
          (retryPage api (req + 1) rest).addSleep (2 ^ a)) ∧
    (∀ (api : Nat → PageReply) (req max_retries : Nat),
        (∀ i, (api i).isTransient = true) →
        retryPage api req (List.range max_retries) =
          .giveup ((List.range max_retries).map fun a => 2 ^ a) max_retries) ∧
    fetch_measurements apiGoodThenFail 1 5 3 =
      ⟨[⟨0, 1, 7⟩], [1, 2, 4, 8, 16], [1, 2, 2, 2, 2, 2], [[⟨0, 7⟩]]⟩ ∧
    fetch_measurements api429 1 5 1 =
      ⟨[⟨0, 1, 7⟩], [2 ^ 0, 2 ^ 1], [1, 1, 1], [[⟨0, 7⟩]]⟩ := by
  refine ⟨?_, ?_, by decide, by decide⟩
  · intro api req a rest hA
    rw [retryPage]
    cases hq : api req with
    | netErr => rfl
    | reply code results meta =>
      rw [hq] at hA
      have hc : code = 408 ∨ code = 429 := by
        simpa [PageReply.isTransient] using hA
      dsimp only
      rw [if_pos hc]
  · intro api req max_retries hT
    rw [retry_all_transient hT (List.range max_retries) req, List.length_range]

/-- Witness for C2's two conditional parts, at the mocked 429-then-200
endpoint and the constant-429 endpoint. -/
theorem backoff_retry_policy_witness :
    retryPage api429 0 (0 :: [1, 2, 3, 4]) =
        (retryPage api429 1 [1, 2, 3, 4]).addSleep (2 ^ 0) ∧
      retryPage api429Always 0 (List.range 5) =
        .giveup ((List.range 5).map fun a => 2 ^ a) 5 :=
  ⟨backoff_retry_policy.1 api429 0 0 [1, 2, 3, 4] (by decide),
   backoff_retry_policy.2.1 api429Always 0 5 fun _ => rfl⟩

/-! ## C3 -/

lemma addSleep_nreq (w : Nat) (o : RetryOut) :
    (o.addSleep w).nreq = o.nreq + 1 := by
  cases o <;> rfl

lemma retry_nreq_pos (api : Nat → PageReply) (req a : Nat) (rest : List Nat) :
    1 ≤ (retryPage api req (a :: rest)).nreq := by
  rw [retryPage]
  cases api req with
  | netErr => rw [addSleep_nreq]; omega
  | reply code results meta =>
    dsimp only
    by_cases hc : code = 408 ∨ code = 429
    · rw [if_pos hc, addSleep_nreq]; omega
    · rw [if_neg hc]
      by_cases h2 : code ≠ 200
      · rw [if_pos h2]; exact Nat.le_refl 1
      · rw [if_neg h2]; exact Nat.le_refl 1

lemma head_replicate {n p : Nat} (hn : 1 ≤ n) :
    (List.replicate n p).head? = some p := by
  cases n with
  | zero => omega
  | succ m => rw [List.replicate_succ]; rfl

lemma head_replicate_append {n p : Nat} (t : List Nat) (hn : 1 ≤ n) :
    (List.replicate n p ++ t).head? = some p := by
  cases n with
  | zero => omega
  | succ m => rw [List.replicate_succ]; rfl

/-- C3: pagination starts at page 1 (the first GET of any fetch, with
at least one retry attempt allowed, carries page 1); after a
successfully fetched nonempty page the loop stops exactly when
`meta.found <= meta.page * meta.limit` (with the `meta.get` defaults)
and otherwise the next GET carries page number `meta.page + 1`; a page
whose `results` list is empty ends the fetch at once — no further page
is requested, whatever the `meta` fields say; against the mocked
endpoint reporting `found = 2500, limit = 1000` exactly 3 pages,
numbered 1, 2, 3, are requested; and against the mock whose second
page is empty while `found = 2500` is never reached, exactly pages 1
and 2 are requested. -/
theorem pagination_cursor :
    (∀ (api : Nat → PageReply) (sid mr fuel : Nat),
        ((fetch_measurements api sid (mr + 1) (fuel + 1)).requestedPages).head? =
          some 1) ∧
    (∀ (api : Nat → PageReply) (sid mr fuel p req n : Nat)
        (res : List RawResult) (meta : MetaPart) (s : List Nat),
        retryPage api req (List.range mr) = .success res meta s n → res ≠ [] →
        (fetchLoop api sid mr (fuel + 1) p req).requestedPages =
          List.replicate n p ++
            (if meta.found.getD 0 ≤ meta.page.getD p * meta.limit.getD res.length
              then []
              else (fetchLoop api sid mr fuel (meta.page.getD p + 1)
                (req + n)).requestedPages)) ∧
    (∀ (api : Nat → PageReply) (sid mr fuel p req n : Nat)
        (meta : MetaPart) (s : List Nat),
        retryPage api req (List.range mr) = .success [] meta s n →
        fetchLoop api sid mr (fuel + 1) p req =
          ⟨[], s, List.replicate n p, []⟩) ∧
    (fetch_measurements api2500 1 5 10).requestedPages = [1, 2, 3] ∧
    (fetch_measurements api2500 1 5 10).requestedPages.length = 3 ∧
    (fetch_measurements apiEmptyPage 1 5 10).requestedPages = [1, 2] := by
  refine ⟨?_, ?_, ?_, by decide, by decide, by decide⟩
  · intro api sid mr fuel
    have hpos : 1 ≤ (retryPage api 0 (List.range (mr + 1))).nreq := by
      rw [List.range_succ_eq_map]
      exact retry_nreq_pos api 0 0 ((List.range mr).map Nat.succ)
    rw [fetch_measurements, fetchLoop]
    rcases hE : retryPage api 0 (List.range (mr + 1)) with ⟨res, m, s, k⟩ | ⟨s, k⟩ | ⟨s, k⟩ <;>
      rw [hE] at hpos <;> dsimp only [RetryOut.nreq] at hpos <;> dsimp only
    · by_cases hres : res = []
      · rw [if_pos hres]
        exact head_replicate hpos
      · rw [if_neg hres]
        split
        · exact head_replicate hpos
        · exact head_replicate_append _ hpos
    · exact head_replicate hpos
    · exact head_replicate hpos
  · intro api sid mr fuel p req n res meta s hE hres
    rw [fetchLoop, hE]
    dsimp only
    rw [if_neg hres]
    split
    · rw [List.append_nil]
    · rfl
  · intro api sid mr fuel p req n meta s hE
    rw [fetchLoop, hE]
    dsimp only
    rw [if_pos rfl]

/-- Witness for C3's conditional parts: the page-1 start at a concrete
endpoint, the step equation at the `found = 2500` mock's first page,
and the zero-results termination at the empty second page of the
empty-page mock. -/
theorem pagination_cursor_witness :
    ((fetch_measurements apiOne 1 (4 + 1) (0 + 1)).requestedPages).head? = some 1 ∧
      (fetchLoop api2500 1 5 (9 + 1) 1 0).requestedPages =
        List.replicate 1 1 ++
          (if (2500 : Nat) ≤ 1 * 1000 then []
            else (fetchLoop api2500 1 5 9 (1 + 1) (0 + 1)).requestedPages) ∧
      fetchLoop apiEmptyPage 1 5 (8 + 1) 2 1 =
        ⟨[], [], List.replicate 1 2, []⟩ :=
  ⟨pagination_cursor.1 apiOne 1 4 0,
   pagination_cursor.2.1 api2500 1 5 9 1 0 1 [⟨21600, 7⟩] ⟨some 1, some 1000, some 2500⟩ []
     (by decide) (by decide),
   pagination_cursor.2.2.1 apiEmptyPage 1 5 8 2 1 1
     ⟨some 2, some 1000, some 2500⟩ [] (by decide)⟩

/-! ## C4 and C9: shared structure lemmas -/

lemma results_eq_join_rawPages {api : Nat → PageReply} {sid mr : Nat} :
    ∀ {fuel p req : Nat},
      (fetchLoop api sid mr fuel p req).results =
        ((fetchLoop api sid mr fuel p req).rawPages.map (pageReadings sid)).flatten := by
  intro fuel
  induction fuel with
  | zero => intro p req; rfl
  | succ n ih =>
    intro p req
    rw [fetchLoop]
    rcases retryPage api req (List.range mr) with ⟨res, m, s, k⟩ | ⟨s, k⟩ | ⟨s, k⟩ <;>
      dsimp only
    · by_cases hres : res = []
      · rw [if_pos hres]
        rfl
      · rw [if_neg hres]
        split
        · simp
        · simp [ih]
    · rfl
    · rfl

lemma pageReadings_datetimes_sublist (sid : Nat) (rs : List RawResult) :
    ((pageReadings sid rs).map Reading.reading_datetime).Sublist
      (rs.map RawResult.datetimeFrom) := by
  rw [pageReadings, List.map_map]
  exact (List.filter_sublist rs).map RawResult.datetimeFrom

lemma join_datetimes_sublist (sid : Nat) (ps : List (List RawResult)) :
    (((ps.map (pageReadings sid)).flatten).map Reading.reading_datetime).Sublist
      ((ps.flatten).map RawResult.datetimeFrom) := by
  induction ps with
  | nil => simp
  | cons p rest ih =>
    simp only [List.map_cons, List.flatten_cons, List.map_append]
    exact (pageReadings_datetimes_sublist sid p).append ih

/-! ## C4 -/

/-- C4 counterexample: against the mocked endpoint whose two pages
both contain the very same item at a sampling hour, the returned list
holds the corresponding record twice, so the record does not occur at
most once. -/
theorem dedup_counterexample :
    (fetch_measurements apiDup 1 5 10).rawPages = [[dupRaw], [dupRaw]] ∧
      ¬ (fetch_measurements apiDup 1 5 10).results.count ⟨0, 1, 7⟩ ≤ 1 := by
  decide

/-- C4 amended: `fetch_measurements` performs no page-to-page
deduplication — the returned list is exactly the concatenation of the
per-page record lists in fetch order, so a record served on several
pages occurs once per page that contains it (twice for the two-page
duplicate mock). -/
theorem pages_concatenated_without_dedup :
    (∀ (api : Nat → PageReply) (sid mr fuel : Nat),
        (fetch_measurements api sid mr fuel).results =
          ((fetch_measurements api sid mr fuel).rawPages.map
            (pageReadings sid)).flatten) ∧
      (fetch_measurements apiDup 1 5 10).results.count ⟨0, 1, 7⟩ = 2 := by
  refine ⟨?_, by decide⟩
  intro api sid mr fuel
  exact results_eq_join_rawPages

/-! ## C9 -/

/-- C9 counterexample: a single-sensor run against an endpoint whose
page lists 18:00 UTC before 12:00 UTC produces final output rows that
are not in chronological order of `reading_datetime`. -/
theorem order_counterexample :
    ¬ List.Pairwise (· ≤ ·)
      ((orchestrate [(process_sensor apiUnsorted wapiEmpty 1 0 0 5 1 []).map
        Prod.fst]).map FullRow.reading_datetime) := by
  decide

/-- C9 amended: within one sensor, `fetch_measurements` emits rows in
the order the API served them — the emitted datetimes form a sublist
of the raw datetimes of the fetched pages in fetch order — so the
sensor's rows are non-decreasing in time whenever the raw results
across its fetched pages are; the code itself never reorders or sorts
them. -/
theorem per_sensor_order_preservation :
    (∀ (api : Nat → PageReply) (sid mr fuel : Nat),
        ((fetch_measurements api sid mr fuel).results.map
          Reading.reading_datetime).Sublist
          (((fetch_measurements api sid mr fuel).rawPages.flatten).map
            RawResult.datetimeFrom)) ∧
      ∀ (api : Nat → PageReply) (sid mr fuel : Nat),
        List.Pairwise (· ≤ ·)
            (((fetch_measurements api sid mr fuel).rawPages.flatten).map
              RawResult.datetimeFrom) →
          List.Pairwise (· ≤ ·)
            ((fetch_measurements api sid mr fuel).results.map
              Reading.reading_datetime) := by
  have hs : ∀ (api : Nat → PageReply) (sid mr fuel : Nat),
      ((fetch_measurements api sid mr fuel).results.map
        Reading.reading_datetime).Sublist
        (((fetch_measurements api sid mr fuel).rawPages.flatten).map
          RawResult.datetimeFrom) := by
    intro api sid mr fuel
    rw [fetch_measurements, results_eq_join_rawPages]
    exact join_datetimes_sublist sid _
  exact ⟨hs, fun api sid mr fuel hp => hp.sublist (hs api sid mr fuel)⟩

/-- Witness for C9's conditional part at a concrete endpoint whose raw
results are chronological. -/
theorem per_sensor_order_preservation_witness :
    List.Pairwise (· ≤ ·)
      ((fetch_measurements api2500 1 5 10).results.map
        Reading.reading_datetime) :=
  per_sensor_order_preservation.2 api2500 1 5 10 (by decide)

/-! ## C5 -/

lemma weatherOfReply_sentinel {code : Nat} {list : List WItem}
    (h : code ≠ 200 ∨ list = []) :
    weatherOfReply code list = sentinelWeather := by
  rw [weatherOfReply.eq_def]
  rcases h with h | h
  · rw [if_pos h]
  · subst h
    split
    · rfl
    · rfl

/-- C5: when the key is not cached and the weather endpoint answers a
non-200 status (such as HTTP 500), or answers 200 with an empty result
list, the lookup returns the sentinel record
`{wind_speed: 0, rain: 0, temp: 999}` normally — no exception reaches
the caller; concretely, a measurement processed against an HTTP-500
weather endpoint gets the sentinel fields attached. -/
theorem weather_sentinel_on_failure :
    (∀ (wapi : WKey → WReply) (c : WCache) (k : WKey) (code : Nat)
        (list : List WItem),
        lruFind c k = none → wapi k = .reply code list →
        (code ≠ 200 ∨ list = []) →
        fetch_weather wapi c k =
          .ok (sentinelWeather,
            ((k, sentinelWeather) :: c).take lruMaxsize, true)) ∧
      attachWeather wapi500 0 0 [] [⟨0, 1, 7⟩] =
        .ok ([⟨0, 1, 7, 0, 0, 999⟩], [((0, 0, 0), sentinelWeather)]) := by
  refine ⟨?_, by rfl⟩
  intro wapi c k code list hf hw hcl
  rw [fetch_weather, hf, hw]
  dsimp only
  rw [weatherOfReply_sentinel hcl]

/-- Witness for C5 at the HTTP-500 endpoint, the empty cache and a
concrete key. -/
theorem weather_sentinel_on_failure_witness :
    fetch_weather wapi500 [] (0, 0, 0) =
      .ok (sentinelWeather,
        (((0, 0, 0), sentinelWeather) :: []).take lruMaxsize, true) :=
  weather_sentinel_on_failure.1 wapi500 [] (0, 0, 0) 500 [] rfl rfl
    (Or.inl (by decide))

/-! ## C6 -/

lemma lruFind_eq_none_iff {c : WCache} {k : WKey} :
    lruFind c k = none ↔ ∀ p ∈ c, p.1 ≠ k := by
  constructor
  · intro h p hp hpk
    cases hf : c.find? (fun q => q.1 = k) with
    | some q => rw [lruFind, hf] at h; simp at h
    | none =>
      have := List.find?_eq_none.mp hf p hp
      simp [hpk] at this
  · intro h
    rw [lruFind]
    have hf : c.find? (fun q => q.1 = k) = none :=
      List.find?_eq_none.mpr fun x hx => by simpa using h x hx
    rw [hf]

lemma take_append_take (N : Nat) (l m : WCache) :
    (l ++ m.take N).take N = (l ++ m).take N := by
  rw [List.take_append_eq_append_take, List.take_append_eq_append_take,
    List.take_take]
  congr 2
  exact inf_eq_left.mpr (Nat.sub_le _ _)

lemma runLookups_fresh {wapi : WKey → WReply} :
    ∀ (ks : List WKey) (c : WCache),
      ks.Nodup → (∀ k ∈ ks, lruFind c k = none) →
      (∀ k ∈ ks, wapi k ≠ .netErr) → c.length ≤ lruMaxsize →
      runLookups wapi c ks =
        .ok (((ks.map fun k => (k, wOfApi wapi k)).reverse ++ c).take lruMaxsize,
          List.replicate ks.length true) := by
  intro ks
  induction ks with
  | nil =>
    intro c _ _ _ hc
    rw [runLookups]
    rw [List.map_nil, List.reverse_nil, List.nil_append,
      List.take_of_length_le hc, List.length_nil, List.replicate_zero]
  | cons k rest ih =>
    intro c hnd hfresh hok hc
    have hck : lruFind c k = none := hfresh k (List.mem_cons_self k rest)
    rw [runLookups, fetch_weather, hck]
    cases hw : wapi k with
    | netErr => exact absurd hw (hok k (List.mem_cons_self k rest))
    | reply code list =>
      dsimp only
      have hkrest : k ∉ rest := (List.nodup_cons.mp hnd).1
      have hnd' : rest.Nodup := (List.nodup_cons.mp hnd).2
      have hv : weatherOfReply code list = wOfApi wapi k := by
        rw [wOfApi, hw]
      have hfresh' : ∀ x ∈ rest,
          lruFind (((k, weatherOfReply code list) :: c).take lruMaxsize) x =
            none := by
        intro x hx
        rw [lruFind_eq_none_iff]
        intro p hp hpx
        have hp' := List.take_subset _ _ hp
        rcases List.mem_cons.mp hp' with hpk | hpc
        · rw [hpk] at hpx
          have hkx : k = x := hpx
          subst hkx
          exact hkrest hx
        · exact lruFind_eq_none_iff.mp
            (hfresh x (List.mem_cons_of_mem _ hx)) p hpc hpx
      have hc' :
          (((k, weatherOfReply code list) :: c).take lruMaxsize).length ≤
            lruMaxsize := by
        rw [List.length_take]; exact inf_le_left
      rw [ih _ hnd' hfresh' (fun x hx => hok x (List.mem_cons_of_mem _ hx)) hc']
      dsimp only
      rw [hv, List.map_cons, List.reverse_cons, List.append_assoc,
        List.singleton_append, take_append_take, List.length_cons,
        List.replicate_succ]

lemma runLookups_append {wapi : WKey → WReply} :
    ∀ (l1 : List WKey) (c c1 : WCache) (bs1 : List Bool) (l2 : List WKey),
      runLookups wapi c l1 = .ok (c1, bs1) →
      runLookups wapi c (l1 ++ l2) =
        (match runLookups wapi c1 l2 with
          | .error e => .error e
          | .ok (c2, bs2) => .ok (c2, bs1 ++ bs2)) := by
  intro l1
  induction l1 with
  | nil =>
    intro c c1 bs1 l2 h
    rw [runLookups] at h
    injection h with h2
    injection h2 with ha hb
    subst ha; subst hb
    rw [List.nil_append]
    cases hr : runLookups wapi c l2 with
    | error e => rfl
    | ok pr =>
      rcases pr with ⟨c2, bs2⟩
      rfl
  | cons x xs ih =>
    intro c c1 bs1 l2 h
    rw [runLookups] at h
    cases hfw : fetch_weather wapi c x with
    | error e => rw [hfw] at h; simp at h
    | ok v =>
      rcases v with ⟨w, cmid, b⟩
      rw [hfw] at h
      dsimp only at h
      cases hrest : runLookups wapi cmid xs with
      | error e => rw [hrest] at h; simp at h
      | ok pr =>
        rcases pr with ⟨c2, bs2⟩
        rw [hrest] at h
        dsimp only at h
        injection h with h2
        injection h2 with ha hb
        subst ha; subst hb
        rw [List.cons_append, runLookups, hfw]
        dsimp only
        rw [ih cmid c2 bs2 l2 hrest]
        cases hl2 : runLookups wapi c2 l2 with
        | error e => rfl
        | ok pr2 =>
          rcases pr2 with ⟨c3, bs3⟩
          dsimp only
          rw [List.cons_append]

lemma lruFind_take_cons {n : Nat} (hn : 1 ≤ n) (k : WKey) (v : Weather)
    (c : WCache) : lruFind (((k, v) :: c).take n) k = some v := by
  cases n with
  | zero => omega
  | succ m =>
    rw [List.take_succ_cons, lruFind, List.find?_cons_of_pos _ (by simp)]

lemma wkSucc_injective : Function.Injective fun i : Nat => wk (i + 1) := by
  intro a b hab
  have := hab
  simp [wk, Prod.ext_iff] at this
  omega

lemma ksHead_nodup :
    (wk 0 :: (List.range 5000).map fun i => wk (i + 1)).Nodup := by
  rw [List.nodup_cons]
  refine ⟨?_, List.Nodup.map wkSucc_injective (List.nodup_range 5000)⟩
  intro hmem
  rcases List.mem_map.mp hmem with ⟨i, _, hi⟩
  simp [wk, Prod.ext_iff] at hi

/-- C6 counterexample: a lookup sequence that opens and closes with
the very same key `wk 0`, with 5000 distinct keys in between, issues a
remote GET on every lookup — in particular the final repeat of `wk 0`
contacts the API again (flag `true`), because the LRU cache of the
lookup holds at most 5000 entries and the first key has been
evicted. -/
theorem memoization_eviction_counterexample :
    ksEvict.head? = some (wk 0) ∧ ksEvict.getLast? = some (wk 0) ∧
      lookupFlags (runLookups wapiItem [] ksEvict) =
        List.replicate 5001 true ++ [true] := by
  refine ⟨rfl, List.getLast?_concat _, ?_⟩
  have hok : ∀ k ∈ wk 0 :: (List.range 5000).map fun i => wk (i + 1),
      wapiItem k ≠ WReply.netErr := by
    intro k _ h
    simp [wapiItem] at h
  have h1 := runLookups_fresh
    (wk 0 :: (List.range 5000).map fun i => wk (i + 1)) [] ksHead_nodup
    (fun k _ => rfl) hok (by decide)
  have hCkeys : ∀ p ∈
      ((((wk 0 :: (List.range 5000).map fun i => wk (i + 1)).map
        fun k => (k, wOfApi wapiItem k)).reverse) ++ ([] : WCache)).take
          lruMaxsize,
      p.1 ≠ wk 0 := by
    intro p hp hk
    rw [List.append_nil, List.map_cons, List.reverse_cons] at hp
    have hlen : ((((List.range 5000).map fun i => wk (i + 1)).map
        fun k => (k, wOfApi wapiItem k)).reverse).length = lruMaxsize := by
      simp [lruMaxsize]
    rw [List.take_left' hlen] at hp
    rw [List.mem_reverse] at hp
    rcases List.mem_map.mp hp with ⟨q, hq, rfl⟩
    rcases List.mem_map.mp hq with ⟨i, _, rfl⟩
    simp [wk, Prod.ext_iff] at hk
  have hfind := lruFind_eq_none_iff.mpr hCkeys
  have h2 : runLookups wapiItem
      (((((wk 0 :: (List.range 5000).map fun i => wk (i + 1)).map
        fun k => (k, wOfApi wapiItem k)).reverse) ++ ([] : WCache)).take
          lruMaxsize) [wk 0] =
      .ok ((((wk 0, weatherOfReply 200 [⟨some 3, some 1, some 20⟩]) ::
        ((((wk 0 :: (List.range 5000).map fun i => wk (i + 1)).map
          fun k => (k, wOfApi wapiItem k)).reverse) ++ ([] : WCache)).take
            lruMaxsize)).take lruMaxsize, [true]) := by
    rw [runLookups, fetch_weather, hfind]
    rw [show wapiItem (wk 0) = WReply.reply 200 [⟨some 3, some 1, some 20⟩]
      from rfl]
    dsimp only
    rw [runLookups]
  rw [show ksEvict =
    (wk 0 :: (List.range 5000).map fun i => wk (i + 1)) ++ [wk 0] from rfl]
  rw [runLookups_append _ _ _ _ _ h1, h2]
  dsimp only [lookupFlags]
  rw [show (wk 0 :: (List.range 5000).map fun i => wk (i + 1)).length = 5001
    by simp]

/-- C6 amended: `fetch_weather` is memoized by the exact
`(lat, lon, timestamp)` key in an LRU cache of maximum size 5000: a
lookup whose key is still cached returns the stored record and issues
no GET, and a repeated lookup of the same key issues exactly one GET
in total when nothing intervenes — but the cache is not unbounded, so
the guarantee holds only until 5000 more-recent distinct keys evict
the entry (see the eviction run above), not for the whole process
lifetime regardless of intervening lookups. -/
theorem weather_memoized_while_cached :
    (∀ (wapi : WKey → WReply) (c : WCache) (k : WKey) (v : Weather),
        lruFind c k = some v →
        fetch_weather wapi c k = .ok (v, (k, v) :: lruRemove c k, false)) ∧
      ∀ (wapi : WKey → WReply) (c : WCache) (k : WKey) (code : Nat)
        (list : List WItem),
        lruFind c k = none → wapi k = .reply code list →
        lookupFlags (runLookups wapi c [k, k]) = [true, false] := by
  constructor
  · intro wapi c k v hv
    rw [fetch_weather, hv]
  · intro wapi c k code list hf hw
    rw [runLookups, fetch_weather, hf, hw]
    dsimp only
    rw [runLookups, fetch_weather,
      lruFind_take_cons (by decide) k (weatherOfReply code list) c]
    dsimp only
    rw [runLookups]
    rfl

/-- Witness for C6's amended theorem: a cached key returns without a
GET, and an immediate repeated lookup of a fresh key issues exactly
one GET. -/
theorem weather_memoized_while_cached_witness :
    fetch_weather wapiItem [((0, 0, 0), sentinelWeather)] (0, 0, 0) =
        .ok (sentinelWeather,
          ((0, 0, 0), sentinelWeather) ::
            lruRemove [((0, 0, 0), sentinelWeather)] (0, 0, 0), false) ∧
      lookupFlags (runLookups wapiItem [] [(0, 0, 0), (0, 0, 0)]) =
        [true, false] :=
  ⟨weather_memoized_while_cached.1 wapiItem _ (0, 0, 0) sentinelWeather rfl,
   weather_memoized_while_cached.2 wapiItem [] (0, 0, 0) 200
     [⟨some 3, some 1, some 20⟩] rfl rfl⟩

/-! ## C7 -/

lemma orchestrate_go (tasks : List (Except Unit (List FullRow))) :
    ∀ acc : List FullRow,
      List.foldl (fun acc t => match t with
        | Except.ok rows => acc ++ rows
        | Except.error _ => acc) acc tasks = acc ++ orchestrate tasks := by
  induction tasks with
  | nil => intro acc; rw [orchestrate]; simp
  | cons t ts ih =>
    intro acc
    rw [orchestrate, List.foldl_cons, List.foldl_cons, ih, ih]
    cases t with
    | ok rows => dsimp only; rw [List.nil_append, List.append_assoc]
    | error e => dsimp only; rw [List.nil_append]

lemma orchestrate_cons (t : Except Unit (List FullRow))
    (ts : List (Except Unit (List FullRow))) :
    orchestrate (t :: ts) =
      (match t with
        | Except.ok rows => rows
        | Except.error _ => []) ++ orchestrate ts := by
  rw [orchestrate, List.foldl_cons, orchestrate_go]
  cases t <;> simp

lemma orchestrate_append (l1 l2 : List (Except Unit (List FullRow))) :
    orchestrate (l1 ++ l2) = orchestrate l1 ++ orchestrate l2 := by
  induction l1 with
  | nil => rfl
  | cons t ts ih =>
    rw [List.cons_append, orchestrate_cons, orchestrate_cons, ih,
      List.append_assoc]

/-- C7: a task that raised contributes nothing to the collected output
— the orchestrator of a run containing a failed task produces exactly
the concatenation of the other tasks' results — and every successful
task's rows appear contiguously in the final output, so one sensor's
failure neither aborts the run nor loses any other sensor's rows. -/
theorem failed_task_isolated :
    (∀ (l1 l2 : List (Except Unit (List FullRow))) (e : Unit),
        orchestrate (l1 ++ Except.error e :: l2) =
          orchestrate l1 ++ orchestrate l2) ∧
      ∀ (tasks : List (Except Unit (List FullRow))) (rows : List FullRow),
        Except.ok rows ∈ tasks →
        ∃ pre post, orchestrate tasks = pre ++ rows ++ post := by
  constructor
  · intro l1 l2 e
    rw [orchestrate_append, orchestrate_cons, List.nil_append]
  · intro tasks
    induction tasks with
    | nil => intro rows h; cases h
    | cons t ts ih =>
      intro rows h
      rcases List.mem_cons.mp h with heq | hts
      · refine ⟨[], orchestrate ts, ?_⟩
        rw [← heq, orchestrate_cons, List.nil_append]
      · rcases ih rows hts with ⟨pre, post, hpp⟩
        cases t with
        | ok r0 =>
          refine ⟨r0 ++ pre, post, ?_⟩
          rw [orchestrate_cons, hpp]
          dsimp only
          simp [List.append_assoc]
        | error e0 =>
          refine ⟨pre, post, ?_⟩
          rw [orchestrate_cons, hpp]
          dsimp only
          rw [List.nil_append]

/-- Witness for C7 at a concrete run of three tasks whose middle task
failed. -/
theorem failed_task_isolated_witness :
    orchestrate ([Except.ok [⟨0, 1, 7, 0, 0, 999⟩]] ++ Except.error () ::
        [Except.ok [⟨21600, 2, 8, 0, 0, 999⟩]]) =
      orchestrate [Except.ok [⟨0, 1, 7, 0, 0, 999⟩]] ++
        orchestrate [Except.ok [⟨21600, 2, 8, 0, 0, 999⟩]] ∧
      ∃ pre post,
        orchestrate [Except.ok [⟨0, 1, 7, 0, 0, 999⟩], Except.error (),
          Except.ok [⟨21600, 2, 8, 0, 0, 999⟩]] =
          pre ++ [(⟨21600, 2, 8, 0, 0, 999⟩ : FullRow)] ++ post :=
  ⟨failed_task_isolated.1 [Except.ok [⟨0, 1, 7, 0, 0, 999⟩]]
     [Except.ok [⟨21600, 2, 8, 0, 0, 999⟩]] (),
   failed_task_isolated.2 [Except.ok [⟨0, 1, 7, 0, 0, 999⟩], Except.error (),
     Except.ok [⟨21600, 2, 8, 0, 0, 999⟩]] [⟨21600, 2, 8, 0, 0, 999⟩]
     (by simp)⟩

/-! ## C8 -/

/-- C8: writing to an existing output file appends the new rows after
the prior content unchanged and adds no header; writing to a missing
file writes the header line followed by the rows; hence two successive
runs against an initially missing file leave exactly one header
line. -/
theorem append_only_output :
    (∀ (prior : List String) (header : String) (rows : List String),
        saveOutput (some prior) header rows = prior ++ rows) ∧
      (∀ (header : String) (rows : List String),
        saveOutput none header rows = header :: rows) ∧
      ∀ (header : String) (r1 r2 : List String),
        header ∉ r1 → header ∉ r2 →
        (saveOutput (some (saveOutput none header r1)) header r2).count
          header = 1 := by
  refine ⟨fun _ _ _ => rfl, fun _ _ => rfl, ?_⟩
  intro header r1 r2 h1 h2
  show ((header :: r1) ++ r2).count header = 1
  rw [List.cons_append, List.count_cons_self, List.count_append,
    List.count_eq_zero_of_not_mem h1, List.count_eq_zero_of_not_mem h2]

/-- Witness for C8's single-header part at concrete lines. -/
theorem append_only_output_witness :
    (saveOutput
        (some (saveOutput none "reading_datetime,sensor_id" ["0,1"]))
        "reading_datetime,sensor_id" ["6,1"]).count
      "reading_datetime,sensor_id" = 1 :=
  append_only_output.2.2 "reading_datetime,sensor_id" ["0,1"] ["6,1"]
    (by simp) (by simp)

/-! ## C10 -/

lemma attachWeather_append {wapi : WKey → WReply} {lat lon : Int} :
    ∀ (rs1 : List Reading) (c c1 : WCache) (rows1 : List FullRow)
      (rs2 : List Reading),
      attachWeather wapi lat lon c rs1 = .ok (rows1, c1) →
      attachWeather wapi lat lon c (rs1 ++ rs2) =
        (match attachWeather wapi lat lon c1 rs2 with
          | .error e => .error e
          | .ok (rows2, c2) => .ok (rows1 ++ rows2, c2)) := by
  intro rs1
  induction rs1 with
  | nil =>
    intro c c1 rows1 rs2 h
    rw [attachWeather] at h
    injection h with h2
    injection h2 with ha hb
    subst ha; subst hb
    rw [List.nil_append]
    cases hr : attachWeather wapi lat lon c rs2 with
    | error e => rfl
    | ok pr => rcases pr with ⟨rows2, c2⟩; rfl
  | cons r rs ih =>
    intro c c1 rows1 rs2 h
    rw [attachWeather] at h
    cases hfw : fetch_weather wapi c (lat, lon, r.reading_datetime) with
    | error e => rw [hfw] at h; simp at h
    | ok v =>
      rcases v with ⟨w, cmid, b⟩
      rw [hfw] at h
      dsimp only at h
      cases hrest : attachWeather wapi lat lon cmid rs with
      | error e => rw [hrest] at h; simp at h
      | ok pr =>
        rcases pr with ⟨rows2, c2⟩
        rw [hrest] at h
        dsimp only at h
        injection h with h2
        injection h2 with ha hb
        subst ha; subst hb
        rw [List.cons_append, attachWeather, hfw]
        dsimp only
        rw [ih cmid c2 rows2 rs2 hrest]
        cases hl2 : attachWeather wapi lat lon c2 rs2 with
        | error e => rfl
        | ok pr2 =>
          rcases pr2 with ⟨rows3, c3⟩
          dsimp only
          rw [List.cons_append]

/-- C10: a network-level exception in a weather lookup (cache miss and
`netErr` from the endpoint) is not caught inside the lookup or the
sensor task: `process_sensor` ends in the exception, dropping every
row of that sensor — including measurements already fetched — and the
exception is absorbed only at the orchestrator, which keeps every
other task's rows; no retry or sentinel is applied to this failure
mode. -/
theorem weather_netErr_drops_sensor :
    (∀ (api : Nat → PageReply) (wapi : WKey → WReply) (sensor_id : Nat)
        (lat lon : Int) (max_retries fuel : Nat) (c c1 : WCache)
        (rs1 : List Reading) (r : Reading) (rs2 : List Reading)
        (rows1 : List FullRow),
        (fetch_measurements api sensor_id max_retries fuel).results =
          rs1 ++ r :: rs2 →
        attachWeather wapi lat lon c rs1 = .ok (rows1, c1) →
        lruFind c1 (lat, lon, r.reading_datetime) = none →
        wapi (lat, lon, r.reading_datetime) = .netErr →
        process_sensor api wapi sensor_id lat lon max_retries fuel c =
          .error ()) ∧
      ∀ (l1 l2 : List (Except Unit (List FullRow))),
        orchestrate (l1 ++ Except.error () :: l2) =
          orchestrate l1 ++ orchestrate l2 := by
  constructor
  · intro api wapi sid lat lon mr fuel c c1 rs1 r rs2 rows1 hres hrs1 hf hw
    rw [process_sensor, hres, attachWeather_append rs1 c c1 rows1 (r :: rs2) hrs1,
      attachWeather, fetch_weather, hf, hw]
  · intro l1 l2
    rw [orchestrate_append, orchestrate_cons, List.nil_append]

/-- Witness for C10: one good measurement, a weather endpoint that
raises, an empty cache — the sensor task fails wholesale while a
sibling task's rows survive orchestration. -/
theorem weather_netErr_drops_sensor_witness :
    process_sensor apiOne wapiNet 1 0 0 5 1 [] = .error () ∧
      orchestrate ([Except.ok [⟨0, 1, 7, 0, 0, 999⟩]] ++
          Except.error () :: []) =
        orchestrate [Except.ok [⟨0, 1, 7, 0, 0, 999⟩]] ++ orchestrate [] :=
  ⟨weather_netErr_drops_sensor.1 apiOne wapiNet 1 0 0 5 1 [] [] []
     ⟨0, 1, 7⟩ [] [] (by decide) rfl rfl rfl,
   weather_netErr_drops_sensor.2 [Except.ok [⟨0, 1, 7, 0, 0, 999⟩]] []⟩

end Fetcher
